import Mathlib

/-!
Verification of the MindPrint cognition-distillation pipeline
(`nanobot/agent/tools/mindprint.py`) against its specification.

The Python code is shallowly embedded: strings are processed as `List Char`,
the `re` module's behaviour on the five PII patterns is implemented by a
fuel-based backtracking matcher with Python's preference order (leftmost
position, left alternative first, greedy quantifiers longest first), and
`re.sub` is modelled by a scan that replaces every non-overlapping match
found in the original text, left to right.  `pathlib`/file effects are
modelled by an explicit file-system state.  Python's `list(set(...))`
(whose iteration order depends on the per-process randomized string hash)
is modelled by an explicit enumeration parameter constrained to be a
duplicate-free reordering.
-/

namespace MindPrint

/-- Python `\w` over ASCII: letters, digits and underscore. -/
def isWordChar (c : Char) : Bool :=
  c.isAlpha || c.isDigit || c = '_'

/-- Python `str.strip()` / `\s` whitespace set (ASCII). -/
def isPySpace (c : Char) : Bool :=
  c = ' ' || c = '\t' || c = '\n' || c = '\r' || c = '\x0b' || c = '\x0c'

/-- ASCII lower-casing, as `str.lower()` acts on ASCII text. -/
def asciiLower (c : Char) : Char :=
  if 'A' ≤ c && c ≤ 'Z' then Char.ofNat (c.toNat + 32) else c

/-- ASCII upper-casing, as `str.upper()` acts on ASCII text. -/
def asciiUpper (c : Char) : Char :=
  if 'a' ≤ c && c ≤ 'z' then Char.ofNat (c.toNat - 32) else c

/-- Regular-expression syntax needed for the five `PII_PATTERNS`. -/
inductive RE where
  | eps : RE
  | cls (p : Char → Bool) : RE
  | seq (a b : RE) : RE
  | alt (a b : RE) : RE
  | opt (a : RE) : RE
  | repGE (a : RE) (n : Nat) : RE
  | repRange (a : RE) (lo hi : Nat) : RE
  | wb : RE

/-- Word boundary `\b` between an optional previous character and the rest. -/
def atBoundary (prev : Option Char) (rest : List Char) : Bool :=
  let w1 := match prev with | none => false | some c => isWordChar c
  let w2 := match rest with | [] => false | c :: _ => isWordChar c
  w1 != w2

/--
Backtracking matcher in continuation-passing style.  `prev` is the character
just before the current position (for `\b`), `k` the continuation; the first
success in Python's preference order wins.  `fuel` bounds call depth; all
uses supply enough fuel for the five patterns (whose repeated sub-patterns
each consume at least one character).
-/
def matchR : Nat → RE → Option Char → List Char →
    (Option Char → List Char → Option (List Char)) → Option (List Char)
  | 0, _, _, _, _ => none
  | fuel + 1, re, prev, s, k =>
    match re with
    | .eps => k prev s
    | .cls p =>
      match s with
      | [] => none
      | c :: cs => if p c then k (some c) cs else none
    | .seq a b => matchR fuel a prev s (fun p' s' => matchR fuel b p' s' k)
    | .alt a b =>
      match matchR fuel a prev s k with
      | some r => some r
      | none => matchR fuel b prev s k
    | .opt a =>
      match matchR fuel a prev s k with
      | some r => some r
      | none => k prev s
    | .repGE a n =>
      match n with
      | m + 1 => matchR fuel a prev s (fun p' s' => matchR fuel (.repGE a m) p' s' k)
      | 0 =>
        match matchR fuel a prev s (fun p' s' => matchR fuel (.repGE a 0) p' s' k) with
        | some r => some r
        | none => k prev s
    | .repRange a lo hi =>
      match lo with
      | m + 1 =>
        matchR fuel a prev s (fun p' s' => matchR fuel (.repRange a m (hi - 1)) p' s' k)
      | 0 =>
        match hi with
        | 0 => k prev s
        | h + 1 =>
          match matchR fuel a prev s (fun p' s' => matchR fuel (.repRange a 0 h) p' s' k) with
          | some r => some r
          | none => k prev s
    | .wb => if atBoundary prev s then k prev s else none

/-- Length of the preferred match of `re` at the current position, if any. -/
def tryMatch (re : RE) (prev : Option Char) (s : List Char) : Option Nat :=
  match matchR (4 * s.length + 400) re prev s (fun _ rest => some rest) with
  | none => none
  | some rest => some (s.length - rest.length)

/--
`re.sub` scan: at each position of the original text try a match; on a
non-empty match emit the replacement and resume after the match (the
character preceding the next position is the last character of the match,
taken from the original text, as in Python); otherwise copy one character.
-/
def subScan : Nat → RE → List Char → Option Char → List Char → List Char
  | 0, _, _, _, s => s
  | fuel + 1, re, repl, prev, s =>
    match s with
    | [] => []
    | c :: cs =>
      match tryMatch re prev s with
      | some (n + 1) =>
        repl ++ subScan fuel re repl ((s.take (n + 1)).getLast?) (s.drop (n + 1))
      | _ => c :: subScan fuel re repl (some c) cs

/-- `re.sub(pattern, repl, s)` for a pattern that never matches empty text. -/
def reSub (re : RE) (repl : List Char) (s : List Char) : List Char :=
  subScan (s.length + 1) re repl none s

/-- Number of non-overlapping matches, as counted by `re.findall`. -/
def countScan : Nat → RE → Option Char → List Char → Nat
  | 0, _, _, _ => 0
  | fuel + 1, re, prev, s =>
    match s with
    | [] => 0
    | _ :: cs =>
      match tryMatch re prev s with
      | some (n + 1) => 1 + countScan fuel re ((s.take (n + 1)).getLast?) (s.drop (n + 1))
      | _ => countScan fuel re s.head? cs

def countMatches (re : RE) (s : List Char) : Nat :=
  countScan (s.length + 1) re none s

/-- Case-insensitive literal (all five patterns are compiled with `re.IGNORECASE`). -/
def litCI (s : String) : RE :=
  s.data.foldr (fun ch acc => RE.seq (.cls (fun c => asciiLower c = asciiLower ch)) acc) .eps

def seqs (l : List RE) : RE :=
  l.foldr .seq .eps

def inList (l : List Char) : Char → Bool :=
  fun c => l.contains c

/-- `[A-Za-z0-9._%+-]` (local part of the email pattern). -/
def emailLocalC (c : Char) : Bool :=
  c.isAlpha || c.isDigit || inList ['.', '_', '%', '+', '-'] c

/-- `[A-Za-z0-9.-]` (domain part of the email pattern). -/
def emailDomC (c : Char) : Bool :=
  c.isAlpha || c.isDigit || inList ['.', '-'] c

/-- `[A-Z|a-z]` — the literal class of the source, which includes `|`. -/
def emailTldC (c : Char) : Bool :=
  c.isAlpha || c = '|'

def digitC (c : Char) : Bool := c.isDigit

/-- `[^\s\)]` (URL tail). -/
def urlTailC (c : Char) : Bool :=
  !(isPySpace c) && c ≠ ')'

/-- `[A-Za-z0-9_\-\.]` (credential value). -/
def apiValC (c : Char) : Bool :=
  c.isAlpha || c.isDigit || inList ['_', '-', '.'] c

/-- `\b[A-Za-z0-9._%+-]+@[A-Za-z0-9.-]+\.[A-Z|a-z]{2,}\b` -/
def emailRE : RE :=
  seqs [.wb, .repGE (.cls emailLocalC) 1, litCI "@", .repGE (.cls emailDomC) 1,
        litCI ".", .repGE (.cls emailTldC) 2, .wb]

/-- `\b\d{3}[-.]?\d{3}[-.]?\d{4}\b|\b\+?1?\s?[().-]?\d{3}[().-]?\d{3}[-.]?\d{4}\b` -/
def phoneRE : RE :=
  .alt
    (seqs [.wb, .repRange (.cls digitC) 3 3, .opt (.cls (inList ['-', '.'])),
           .repRange (.cls digitC) 3 3, .opt (.cls (inList ['-', '.'])),
           .repRange (.cls digitC) 4 4, .wb])
    (seqs [.wb, .opt (litCI "+"), .opt (litCI "1"), .opt (.cls isPySpace),
           .opt (.cls (inList ['(', ')', '.', '-'])), .repRange (.cls digitC) 3 3,
           .opt (.cls (inList ['(', ')', '.', '-'])), .repRange (.cls digitC) 3 3,
           .opt (.cls (inList ['-', '.'])), .repRange (.cls digitC) 4 4, .wb])

/-- `https?://[^\s\)]+|www\.[^\s\)]+` -/
def urlRE : RE :=
  .alt
    (seqs [litCI "http", .opt (litCI "s"), litCI "://", .repGE (.cls urlTailC) 1])
    (seqs [litCI "www.", .repGE (.cls urlTailC) 1])

/-- `\b(?:\d{1,3}\.){3}\d{1,3}\b` -/
def ipRE : RE :=
  seqs [.wb, .repRange (.seq (.repRange (.cls digitC) 1 3) (litCI ".")) 3 3,
        .repRange (.cls digitC) 1 3, .wb]

/-- `\b(?:api[_-]?key|secret|token|password)\s*[:=]\s*['"]?[A-Za-z0-9_\-\.]+['"]?\b` -/
def apiKeyRE : RE :=
  seqs [.wb,
        .alt (seqs [litCI "api", .opt (.cls (inList ['_', '-'])), litCI "key"])
             (.alt (litCI "secret") (.alt (litCI "token") (litCI "password"))),
        .repGE (.cls isPySpace) 0, .cls (inList [':', '=']), .repGE (.cls isPySpace) 0,
        .opt (.cls (inList ['\'', '"'])), .repGE (.cls apiValC) 1,
        .opt (.cls (inList ['\'', '"'])), .wb]

/-- `PII_PATTERNS`, in the source's (insertion) order. -/
def piiPatterns : List (String × RE) :=
  [("email", emailRE), ("phone", phoneRE), ("url", urlRE),
   ("ip_address", ipRE), ("api_key", apiKeyRE)]

/-- The replacement tag for a rule: `f"[{pattern_name.upper()}]"`. -/
def placeholderTag (name : String) : List Char :=
  '[' :: (name.data.map asciiUpper) ++ [']']

/-- `MindPrintTool._redact_pii`: apply each rule, in rule order, over the whole text. -/
def redactPii (content : String) : String :=
  String.mk (piiPatterns.foldl (fun acc pr => reSub pr.2 (placeholderTag pr.1) acc) content.data)

/-- `MindPrintTool._count_redactions`: per-rule match counts on the raw text, zeros omitted. -/
def countRedactions (content : String) : List (String × Nat) :=
  piiPatterns.filterMap (fun pr =>
    let n := countMatches pr.2 content.data
    if n > 0 then some (pr.1, n) else none)

/-! ## String utilities mirroring the Python built-ins used by the tool -/

/-- `str.split(sep)` for a single-character separator. -/
def splitOnChar (sep : Char) : List Char → List (List Char)
  | [] => [[]]
  | c :: cs =>
    let r := splitOnChar sep cs
    if c = sep then [] :: r
    else
      match r with
      | [] => [[c]]
      | h :: t => (c :: h) :: t

/-- `str.strip()`: drop surrounding whitespace. -/
def pyStrip (l : List Char) : List Char :=
  ((l.dropWhile isPySpace).reverse.dropWhile isPySpace).reverse

/-- `str.lower()` (ASCII). -/
def pyLower (l : List Char) : List Char :=
  l.map asciiLower

/-- Boolean list-prefix test. -/
def isPrefixOfB : List Char → List Char → Bool
  | [], _ => true
  | _ :: _, [] => false
  | a :: as, b :: bs => a = b && isPrefixOfB as bs

/-- Python `needle in haystack` on strings (substring containment). -/
def hasSub (hay pat : List Char) : Bool :=
  if isPrefixOfB pat hay then true
  else
    match hay with
    | [] => false
    | _ :: t => hasSub t pat

/-! ## `MindPrintTool._extract_patterns` -/

/-- The three pattern buckets built by `_extract_patterns`. -/
structure Patterns where
  concepts : List String
  methodologies : List String
  learnings : List String
deriving DecidableEq, Repr

def conceptKeywords : List String :=
  ["pattern", "architecture", "design", "system", "process", "framework", "approach"]

def methodologyKeywords : List String :=
  ["workflow", "pipeline", "strategy", "method", "technique"]

def learningKeywords : List String :=
  ["learned", "discovered", "realized", "found", "insight"]

def anyKeyword (kws : List String) (lowLine : List Char) : Bool :=
  kws.any (fun k => hasSub lowLine k.data)

/-- One iteration of the `for line in lines` loop of `_extract_patterns`. -/
def extractStep (acc : Patterns) (line : List Char) : Patterns :=
  let stripped := pyStrip line
  if stripped.isEmpty || isPrefixOfB ['#'] stripped then acc
  else
    let low := pyLower line
    let acc1 :=
      if anyKeyword conceptKeywords low && stripped.length > 15 then
        { acc with concepts := acc.concepts ++ [String.mk stripped] }
      else acc
    let acc2 :=
      if anyKeyword methodologyKeywords low && stripped.length > 15 then
        { acc1 with methodologies := acc1.methodologies ++ [String.mk stripped] }
      else acc1
    if anyKeyword learningKeywords low && stripped.length > 15 then
      { acc2 with learnings := acc2.learnings ++ [String.mk stripped] }
    else acc2

/-- `MindPrintTool._extract_patterns`: split on newlines and bucket the lines. -/
def extractPatterns (content : String) : Patterns :=
  (splitOnChar '\n' content.data).foldl extractStep ⟨[], [], []⟩

/-! ## `MindPrintTool._format_cognition`

`list(set(...))` enumerates a Python set of strings; its order depends on the
interpreter's per-process randomized string hash.  It is modelled by an
explicit enumeration function `e`, constrained by `validEnum` to produce a
duplicate-free list with exactly the members of its input. -/

/-- A valid model of `list(set(xs))`: duplicate-free, same members. -/
def validEnum (e : List String → List String) : Prop :=
  ∀ xs : List String, (e xs).Nodup ∧ ∀ a : String, a ∈ e xs ↔ a ∈ xs

/-- `p.lstrip('-*').strip()`. -/
def cleanBullet (p : String) : String :=
  String.mk (pyStrip (p.data.dropWhile (fun c => c = '-' || c = '*')))

/-- The generator `(p.lstrip('-*').strip() for p in xs[:15] if len(p) > 15)`. -/
def processedBullets (xs : List String) : List String :=
  ((xs.take 15).filter (fun p => p.length > 15)).map cleanBullet

/-- `list(set(...))[:10]` for the concepts section. -/
def conceptsShown (e : List String → List String) (pats : Patterns) : List String :=
  (e (processedBullets pats.concepts)).take 10

/-- `list(set(...))[:10]` for the methodologies section. -/
def methodologiesShown (e : List String → List String) (pats : Patterns) : List String :=
  (e (processedBullets pats.methodologies)).take 10

/-- `list(set(...))[:5]` for the key-insights section. -/
def learningsShown (e : List String → List String) (pats : Patterns) : List String :=
  (e (processedBullets pats.learnings)).take 5

def bulletLines (xs : List String) : String :=
  String.join (xs.map (fun c => "- " ++ c ++ "\n"))

def headerTemplate : String :=
  "# Thinking Pattern\n\nThis document represents your distilled cognition—your thinking patterns and methodologies\ngeneralized for knowledge sharing. All personally identifiable information and proprietary \ndetails have been automatically removed.\n\n## Core Concepts & Frameworks\n\nKey concepts that shape your approach:\n\n"

def footerTemplate : String :=
  "\n## Thinking Patterns\n\nThis cognition represents:\n- Your approach to problem-solving and analysis\n- Methodologies you apply across domains\n- Frameworks that guide your decisions\n- Patterns you've recognized and internalized\n\n## Privacy & Redaction\n\nThis file has been automatically processed to remove:\n- Personal names and identifiers\n- Email addresses and phone numbers\n- Company names and internal systems\n- Customer/account information\n- Proprietary data and credentials\n- Specific dates and identifying details\n\n**Core thinking patterns and methodologies are preserved for knowledge sharing.**\n\n---\n\n*Generated by MindPrint - Automated Cognition Distillation*\n*Protect your privacy while sharing your expertise*\n"

/-- `MindPrintTool._format_cognition`: render the markdown artifact. -/
def formatCognition (e : List String → List String) (pats : Patterns) : String :=
  let concepts := conceptsShown e pats
  let methodologies := methodologiesShown e pats
  let learnings := learningsShown e pats
  headerTemplate ++
  (if concepts ≠ [] then bulletLines concepts
   else "- Pattern recognition and analysis\n- Systematic problem-solving\n") ++
  "\n## Methodologies & Approaches\n\n" ++
  (if methodologies ≠ [] then bulletLines methodologies
   else "- Systematic analysis and documentation\n- Iterative improvement cycles\n") ++
  (if learnings ≠ [] then "\n## Key Insights\n\n" ++ bulletLines learnings else "") ++
  footerTemplate

/-- `MindPrintTool._distill_content`: redact, extract, format. -/
def distillContent (e : List String → List String) (content : String) : String :=
  formatCognition e (extractPatterns (redactPii content))

/-! ## File-system model and `MindPrintTool._distill`

A file system is a finite association of paths to contents plus the set of
existing directories.  Paths are joined with `/` as `pathlib` does; `Path`
normalization of caller-supplied paths is not modelled (callers are assumed
to pass normalized paths). -/

structure FS where
  files : List (String × String)
  dirs : List String
deriving DecidableEq, Repr

def FS.readFile (fs : FS) (p : String) : Option String :=
  fs.files.lookup p

def FS.fileExists (fs : FS) (p : String) : Bool :=
  (fs.readFile p).isSome

/-- `write_text`: create or overwrite. -/
def FS.setFile (fs : FS) (p c : String) : FS :=
  { fs with files := (p, c) :: fs.files.filter (fun q => q.1 ≠ p) }

/-- `mkdir(parents=True, exist_ok=True)`, modelled at the granularity of the one path. -/
def FS.addDir (fs : FS) (p : String) : FS :=
  { fs with dirs := if fs.dirs.contains p then fs.dirs else p :: fs.dirs }

def joinSep (sep : String) : List String → String
  | [] => ""
  | [x] => x
  | x :: xs => x ++ sep ++ joinSep sep xs

/-- `" Redacted: " + ", ".join(f"{k}={v}" ...)` when any count is positive. -/
def redactedInfo (counts : List (String × Nat)) : String :=
  if counts = [] then ""
  else " Redacted: " ++ joinSep ", " (counts.map (fun kv => kv.1 ++ "=" ++ toString kv.2))

/--
`MindPrintTool._distill`: check the two input files, combine, distill, create
the output directory, write `cognition.md`, and return a status string; if
neither input file exists, fail with a message naming the searched location
and leave the file system untouched.
-/
def combinedOf (fs : FS) (basePath : String) : String :=
  "# Memory\n\n" ++ (fs.readFile (basePath ++ "/MEMORY.md")).getD "" ++
    "\n\n# History\n\n" ++ (fs.readFile (basePath ++ "/HISTORY.md")).getD ""

def distillOp (e : List String → List String) (fs : FS) (cwd : String)
    (path outputDir : Option String) : FS × String :=
  let basePath := path.getD cwd
  let outputPath := outputDir.getD (basePath ++ "/.mindprint")
  let memoryFile := basePath ++ "/MEMORY.md"
  let historyFile := basePath ++ "/HISTORY.md"
  if !fs.fileExists memoryFile && !fs.fileExists historyFile then
    (fs, "Error: No MEMORY.md or HISTORY.md found in " ++ basePath)
  else
    let combined := combinedOf fs basePath
    let distilled := distillContent e combined
    let cognitionFile := outputPath ++ "/cognition.md"
    let fs' := (fs.addDir outputPath).setFile cognitionFile distilled
    (fs', "✓ Cognition distilled to " ++ cognitionFile ++ redactedInfo (countRedactions combined))

/-- Paths present after an operation that were not present before it. -/
def newPaths (fs fs' : FS) : List String :=
  (fs'.files.map Prod.fst).filter (fun p => !fs.fileExists p)

/-! ## `MindPrintTool.execute`

The entry point dispatches on the action string inside `try: ... except
Exception as e: return f"Error: {str(e)}"`.  A stage's outcome is either a
returned string or a raised exception; `PyResult` models this, and the
stage outcomes are left abstract so the theorem quantifies over every fault
a stage could raise. -/

inductive PyResult (α : Type) where
  | ok (val : α) : PyResult α
  | exc (msg : String) : PyResult α
deriving DecidableEq

/-- The `try`-block body: dispatch on the action string. -/
def dispatchOp (distillResult listResult : PyResult String) (action : String) : PyResult String :=
  if action = "distill" then distillResult
  else if action = "list" then listResult
  else .ok ("Error: Unknown action '" ++ action ++ "'. Available: distill, list")

/-- `MindPrintTool.execute`: the dispatch wrapped in the catch-all handler. -/
def executeOp (distillResult listResult : PyResult String) (action : String) : PyResult String :=
  match dispatchOp distillResult listResult action with
  | .ok s => .ok s
  | .exc m => .ok ("Error: " ++ m)

/-! ## Signal Scorer and Trait Mapper

Modelled from the spec: the Signal Scorer and Trait Mapper stages (§4.3,
§4.4 of the specification; the 8-field `SignalVector`, per-category
keyword-presence scoring with the special `why` rule, and the five
threshold rules producing the `TraitProfile`) are not present anywhere
under `src/`; the shipped `_extract_patterns`/`_format_cognition` contain
no signal counters or trait labels.  The definitions below follow the
spec's words. -/

/-- Modelled from the spec: the 8 named non-negative counters of the SignalVector. -/
structure SignalVector where
  comparison : Nat
  risk_awareness : Nat
  implementation_focus : Nat
  why_questions : Nat
  meta_thinking : Nat
  uncertainty : Nat
  optimization : Nat
  exploration : Nat
deriving DecidableEq, Repr

def SignalVector.zero : SignalVector :=
  ⟨0, 0, 0, 0, 0, 0, 0, 0⟩

/-- Modelled from the spec: per-category keyword sets.  The spec does not
enumerate them; these are chosen consistent with its Scenario A. -/
def comparisonKeywords : List String :=
  ["compare", "vs", "versus", "better than", "trade-off"]

def riskKeywords : List String :=
  ["risk", "edge case", "failure", "fallback"]

def implementationKeywords : List String :=
  ["implement", "build", "deploy", "ship", "refactor"]

def metaThinkingKeywords : List String :=
  ["architecture", "framework", "abstraction", "meta"]

def uncertaintyKeywords : List String :=
  ["maybe", "perhaps", "not sure", "unclear", "uncertain"]

def optimizationKeywords : List String :=
  ["optimize", "optimization", "faster", "efficient", "speed up"]

def explorationKeywords : List String :=
  ["explore", "experiment", "investigate", "prototype"]

def presenceInc (b : Bool) : Nat :=
  if b then 1 else 0

/-- Modelled from the spec: classification by presence, not count, of any
keyword of a category inside the lowercased sentence; each sentence
increments each counter by 0 or 1; `why_questions` increments when the
lowercased sentence begins with `why` or contains `" why "`. -/
def scoreSentence (v : SignalVector) (sentence : String) : SignalVector :=
  let low := pyLower sentence.data
  { comparison := v.comparison + presenceInc (anyKeyword comparisonKeywords low),
    risk_awareness := v.risk_awareness + presenceInc (anyKeyword riskKeywords low),
    implementation_focus :=
      v.implementation_focus + presenceInc (anyKeyword implementationKeywords low),
    why_questions :=
      v.why_questions +
        presenceInc (isPrefixOfB "why".data low || hasSub low " why ".data),
    meta_thinking := v.meta_thinking + presenceInc (anyKeyword metaThinkingKeywords low),
    uncertainty := v.uncertainty + presenceInc (anyKeyword uncertaintyKeywords low),
    optimization := v.optimization + presenceInc (anyKeyword optimizationKeywords low),
    exploration := v.exploration + presenceInc (anyKeyword explorationKeywords low) }

/-- Modelled from the spec: aggregate a SentenceSet by summation. -/
def scoreSentences (sentences : List String) : SignalVector :=
  sentences.foldl scoreSentence SignalVector.zero

/-- Modelled from the spec: the 5 qualitative trait labels. -/
structure TraitProfile where
  decision_style : String
  execution_mode : String
  risk_profile : String
  abstraction_level : String
  learning_style : String
deriving DecidableEq, Repr

/-- Modelled from the spec: the Trait Mapper's five top-to-bottom,
first-match-wins threshold rules with strict `>` comparisons. -/
def mapTraits (v : SignalVector) : TraitProfile :=
  { decision_style :=
      if v.comparison > 5 then "Analytical and comparison-driven"
      else if v.uncertainty > 5 then "Validation-seeking"
      else "Balanced",
    execution_mode :=
      if v.implementation_focus > v.exploration then "Execution-oriented"
      else "Exploratory",
    risk_profile := if v.risk_awareness > 3 then "Risk-aware" else "Moderate",
    abstraction_level :=
      if v.meta_thinking > 3 then "High-level systems thinker"
      else "Concrete or tactical thinker",
    learning_style :=
      if v.why_questions > 3 then "Conceptual (why-driven)"
      else "Practical (how-driven)" }

/-! ## The sentence split claimed by the specification (for claim C6)

The spec's Sentence Extractor contract, stated as a definition to compare
with what `_extract_patterns` actually does. -/

/-- Split at every maximal run of `.`, `!`, `?`, newline. -/
def isSentenceDelim (c : Char) : Bool :=
  c = '.' || c = '!' || c = '?' || c = '\n'

def splitDelims (l : List Char) : List (List Char) :=
  let raw :=
    l.foldr
      (fun c acc =>
        if isSentenceDelim c then [] :: acc
        else
          match acc with
          | [] => [[c]]
          | h :: t => (c :: h) :: t)
      [[]]
  raw

/-- The spec's claimed SentenceSet: split at delimiter runs, trim, keep
only segments of trimmed length > 20, in source order. -/
def claimedSentenceSet (s : String) : List String :=
  ((splitDelims s.data).map pyStrip).filterMap
    (fun seg => if seg.length > 20 then some (String.mk seg) else none)

/-! ## Concrete inputs and auxiliary definitions used by the theorems -/

/-- Whether a line survives `_extract_patterns` for a given keyword set. -/
def lineKept (kws : List String) (line : List Char) : Bool :=
  let stripped := pyStrip line
  if stripped.isEmpty || isPrefixOfB ['#'] stripped then false
  else anyKeyword kws (pyLower line) && decide (stripped.length > 15)

def bucketLines (kws : List String) (lines : List (List Char)) : List String :=
  (lines.filter (lineKept kws)).map (fun l => String.mk (pyStrip l))

/-- Declarative form of one `_extract_patterns` bucket. -/
def bucketOf (kws : List String) (content : String) : List String :=
  bucketLines kws (splitOnChar '\n' content.data)

/-- A second valid model of `list(set(...))`, enumerating in the opposite order. -/
def enumRev : List String → List String :=
  fun xs => (List.dedup xs).reverse

/-- Two-concept input on which the artifact content depends on the set order. -/
def c1Text : String :=
  "Alpha architecture notes here\nBeta architecture notes here"

/-- Input with a full-name-shaped and a company-suffix-shaped phrase. -/
def c2Text : String :=
  "Meeting with John Smith from Acme Inc"

/-- Input on which redaction is not idempotent. -/
def c3Text : String :=
  "123.456.7890https://x"

/-- Two keyword lines: one contains a sentence delimiter, one is 16 characters. -/
def c6Text : String :=
  "Our system architecture design works well. It scales\ndesign abcdefghi"

/-- The spec's Scenario A sentence. -/
def scenarioASentence : String :=
  "Why do we always compare performance vs the old system architecture design"

/-- A file system holding only an empty memory document. -/
def fs0 : FS :=
  ⟨[("/ws/MEMORY.md", "")], []⟩

/-- A file system with no input documents. -/
def fsEmpty : FS :=
  ⟨[("/ws/notes.txt", "hello")], []⟩

/-- Sample patterns for witness instantiation. -/
def samplePats : Patterns :=
  ⟨["- A layered architecture design approach for services",
    "Our system architecture design works well. It scales"],
   ["* The deployment pipeline strategy we refined"],
   ["I learned that the review process works best async"]⟩

/-! ## Helper lemmas -/

theorem dedupValid : validEnum List.dedup :=
  fun xs => ⟨List.nodup_dedup xs, fun _ => List.mem_dedup⟩

theorem enumRevValid : validEnum enumRev :=
  fun xs => ⟨List.nodup_reverse.mpr (List.nodup_dedup xs),
    fun _ => (List.mem_reverse).trans List.mem_dedup⟩

theorem extractStep_eq (acc : Patterns) (line : List Char) :
    extractStep acc line =
      { concepts := acc.concepts ++
          (if lineKept conceptKeywords line then [String.mk (pyStrip line)] else []),
        methodologies := acc.methodologies ++
          (if lineKept methodologyKeywords line then [String.mk (pyStrip line)] else []),
        learnings := acc.learnings ++
          (if lineKept learningKeywords line then [String.mk (pyStrip line)] else []) } := by
  unfold extractStep lineKept
  cases h0 : ((pyStrip line).isEmpty || isPrefixOfB ['#'] (pyStrip line)) with
  | true => simp [h0]
  | false =>
    simp only [h0, Bool.false_eq_true, if_false]
    cases hc : anyKeyword conceptKeywords (pyLower line) <;>
      cases hm : anyKeyword methodologyKeywords (pyLower line) <;>
        cases hl : anyKeyword learningKeywords (pyLower line) <;>
          cases hn : decide ((pyStrip line).length > 15) <;>
            simp [hc, hm, hl, hn]

theorem extractLoop_eq (lines : List (List Char)) (acc : Patterns) :
    lines.foldl extractStep acc =
      { concepts := acc.concepts ++ bucketLines conceptKeywords lines,
        methodologies := acc.methodologies ++ bucketLines methodologyKeywords lines,
        learnings := acc.learnings ++ bucketLines learningKeywords lines } := by
  induction lines generalizing acc with
  | nil => simp [bucketLines]
  | cons l ls ih =>
    rw [List.foldl_cons, ih, extractStep_eq]
    cases hc : lineKept conceptKeywords l <;>
      cases hm : lineKept methodologyKeywords l <;>
        cases hl : lineKept learningKeywords l <;>
          simp [bucketLines, List.filter_cons, hc, hm, hl]

theorem shown_sound (e : List String → List String) (he : validEnum e)
    (xs : List String) (n : Nat) :
    ∀ c ∈ (e (processedBullets xs)).take n, ∃ p ∈ xs.take 15, c = cleanBullet p := by
  intro c hc
  have h1 : c ∈ e (processedBullets xs) := List.mem_of_mem_take hc
  have h2 : c ∈ processedBullets xs := ((he (processedBullets xs)).2 c).mp h1
  unfold processedBullets at h2
  rcases List.mem_map.mp h2 with ⟨p, hp, rfl⟩
  exact ⟨p, List.mem_of_mem_filter hp, rfl⟩

/-! ## Claim theorems -/

set_option maxRecDepth 100000 in
/-- Claim C1 (code bug): the distillation output is not independent of
randomness.  Both `List.dedup` and `enumRev` are valid models of Python's
`list(set(...))` enumeration (which depends on the per-process randomized
string hash), yet on the same input text they yield different artifact
content, so two invocations of the distill transform on the same text can
produce different output. -/
theorem distill_output_depends_on_set_enumeration :
    validEnum List.dedup ∧ validEnum enumRev ∧
      distillContent List.dedup c1Text ≠ distillContent enumRev c1Text :=
  ⟨dedupValid, enumRevValid, by decide⟩

/-- Claim C2 (code bug): the declared rule set has exactly five rules
(email, phone, url, ip_address, api_key) — no full-name or company-suffix
rule — so a text containing a full-name-shaped and a company-suffix-shaped
phrase is returned unchanged, while a genuine email is tagged. -/
theorem redact_has_no_name_or_company_rule :
    piiPatterns.map Prod.fst = ["email", "phone", "url", "ip_address", "api_key"] ∧
      redactPii c2Text = c2Text ∧
      redactPii "Contact a@b.com now" = "Contact [EMAIL] now" :=
  ⟨rfl, by decide, by decide⟩

/-- Claim C3 counterexample: redaction is not idempotent.  On
`"123.456.7890https://x"` the first pass leaves the phone number (no word
boundary before `https`) and replaces the URL; the inserted `[` creates a
word boundary, so the second pass replaces the phone number as well. -/
theorem redact_not_idempotent :
    redactPii c3Text = "123.456.7890[URL]" ∧
      redactPii (redactPii c3Text) = "[PHONE][URL]" ∧
      redactPii (redactPii c3Text) ≠ redactPii c3Text :=
  ⟨by decide, by decide, by decide⟩

/-- Claim C3 (corrected): what is true of the placeholders is that no
placeholder tag on its own satisfies any declared pattern — redaction
leaves each tag (and the redacted form of the counterexample) unchanged;
idempotence nevertheless fails because a substitution can create a word
boundary that an earlier rule's pattern needs. -/
theorem redact_placeholders_inert :
    redactPii "[EMAIL]" = "[EMAIL]" ∧ redactPii "[PHONE]" = "[PHONE]" ∧
      redactPii "[URL]" = "[URL]" ∧ redactPii "[IP_ADDRESS]" = "[IP_ADDRESS]" ∧
      redactPii "[API_KEY]" = "[API_KEY]" ∧
      redactPii "[PHONE][URL]" = "[PHONE][URL]" :=
  ⟨by decide, by decide, by decide, by decide, by decide, by decide⟩

/-- Claim C4 (confirmed): when neither `MEMORY.md` nor `HISTORY.md` exists
in the source location, `_distill` returns the error message naming that
location and leaves the file system (files and directories) untouched. -/
theorem distill_missing_inputs_fails_cleanly
    (e : List String → List String) (fs : FS) (cwd : String)
    (path outputDir : Option String)
    (hm : fs.fileExists (path.getD cwd ++ "/MEMORY.md") = false)
    (hh : fs.fileExists (path.getD cwd ++ "/HISTORY.md") = false) :
    distillOp e fs cwd path outputDir =
      (fs, "Error: No MEMORY.md or HISTORY.md found in " ++ path.getD cwd) := by
  unfold distillOp
  simp [hm, hh]

theorem distill_missing_inputs_fails_cleanly_witness :
    FS.fileExists fsEmpty ((some "/ws").getD "/cwd" ++ "/MEMORY.md") = false ∧
      FS.fileExists fsEmpty ((some "/ws").getD "/cwd" ++ "/HISTORY.md") = false ∧
      distillOp List.dedup fsEmpty "/cwd" (some "/ws") none =
        (fsEmpty, "Error: No MEMORY.md or HISTORY.md found in /ws") :=
  ⟨by decide, by decide,
    distill_missing_inputs_fails_cleanly List.dedup fsEmpty "/cwd" (some "/ws") none
      (by decide) (by decide)⟩

/-- Claim C5 (confirmed): `execute` wraps the action dispatch in a
catch-all handler, so for every action string and every stage outcome
(including a raised exception in either stage it dispatches to, and
unknown actions) it returns a status string and never lets a fault
propagate. -/
theorem execute_never_propagates :
    (∀ distillResult listResult : PyResult String, ∀ action : String,
        ∃ s : String, executeOp distillResult listResult action = .ok s) ∧
      (∀ m : String, ∀ listResult : PyResult String,
        executeOp (.exc m) listResult "distill" = .ok ("Error: " ++ m)) ∧
      (∀ distillResult : PyResult String, ∀ m : String,
        executeOp distillResult (.exc m) "list" = .ok ("Error: " ++ m)) ∧
      (∀ distillResult listResult : PyResult String,
        executeOp distillResult listResult "sync" =
          .ok "Error: Unknown action 'sync'. Available: distill, list") := by
  refine ⟨?_, ?_, ?_, ?_⟩
  · intro dR lR action
    unfold executeOp
    cases h : dispatchOp dR lR action with
    | ok s => exact ⟨s, rfl⟩
    | exc m => exact ⟨"Error: " ++ m, rfl⟩
  · intro m lR
    rfl
  · intro dR m
    rfl
  · intro dR lR
    rfl

/-- Claim C6 counterexample: `_extract_patterns` does not perform the
claimed sentence split.  On a concrete redacted text it keeps a unit
containing the delimiter `.` and a unit of trimmed length 16 ≤ 20 — both
impossible for the claimed extractor — and the claimed SentenceSet of the
same text differs from what the code produces. -/
theorem extract_keeps_units_the_claimed_split_forbids :
    (extractPatterns c6Text).concepts =
        ["Our system architecture design works well. It scales", "design abcdefghi"] ∧
      hasSub "Our system architecture design works well. It scales".data ['.'] = true ∧
      ("design abcdefghi".length ≤ 20 ∧ "design abcdefghi".length > 15) ∧
      claimedSentenceSet c6Text = ["Our system architecture design works well"] ∧
      claimedSentenceSet c6Text ≠ (extractPatterns c6Text).concepts :=
  ⟨by decide, by decide, ⟨by decide, by decide⟩, by decide, by decide⟩

/-- Claim C6 (corrected): the extractor splits the redacted text at
newlines only; each line is stripped of surrounding whitespace; empty
lines and lines starting with `#` are skipped; a line whose lowercased
text contains a keyword of a category and whose stripped length exceeds
15 contributes its stripped form to that category's bucket, in source
order. -/
theorem extract_is_per_line_keyword_filter (content : String) :
    extractPatterns content =
      ⟨bucketOf conceptKeywords content, bucketOf methodologyKeywords content,
       bucketOf learningKeywords content⟩ := by
  unfold extractPatterns bucketOf
  rw [extractLoop_eq]
  rfl

/-- Claim C7 (confirmed, spec-modelled): scoring the Scenario A sentence
increments `comparison`, `why_questions` and `meta_thinking` by exactly 1
(presence, not count: the sentence holds two comparison keywords) and
leaves the other five counters of the SignalVector unchanged, from any
starting vector. -/
theorem scoreSentence_scenarioA (v : SignalVector) :
    scoreSentence v scenarioASentence =
      { v with comparison := v.comparison + 1, why_questions := v.why_questions + 1,
               meta_thinking := v.meta_thinking + 1 } :=
  rfl

/-- Claim C8 (confirmed, spec-modelled): the trait rules are evaluated
top-to-bottom with first-match-wins and strict `>`; with `comparison = 6`
and `uncertainty = 10` the comparison branch wins. -/
theorem decision_style_comparison_first (v : SignalVector)
    (hc : v.comparison = 6) (_hu : v.uncertainty = 10) :
    (mapTraits v).decision_style = "Analytical and comparison-driven" := by
  unfold mapTraits
  rw [hc]
  rfl

theorem decision_style_comparison_first_witness :
    (SignalVector.mk 6 0 0 0 0 10 0 0).comparison = 6 ∧
      (SignalVector.mk 6 0 0 0 0 10 0 0).uncertainty = 10 ∧
      (mapTraits (SignalVector.mk 6 0 0 0 0 10 0 0)).decision_style =
        "Analytical and comparison-driven" :=
  ⟨rfl, rfl, decision_style_comparison_first (SignalVector.mk 6 0 0 0 0 10 0 0) rfl rfl⟩

/-- Claim C9 counterexample: a successful invocation persists exactly one
new file — `cognition.md` — not a pair of representations; there is no
structured (version/signals/traits) encoding alongside the rendered
view. -/
theorem distill_writes_exactly_one_file :
    newPaths fs0 (distillOp List.dedup fs0 "/cwd" (some "/ws") none).1 =
        ["/ws/.mindprint/cognition.md"] ∧
      (distillOp List.dedup fs0 "/cwd" (some "/ws") none).2 =
        "✓ Cognition distilled to /ws/.mindprint/cognition.md" :=
  ⟨by decide, by decide⟩

/-- Claim C9 (corrected): on every successful invocation the artifact is
recreated in full and persisted as a single representation — the rendered
Markdown view — under the fixed name `cognition.md` in the output
location, overwriting any prior artifact there. -/
theorem distill_persists_single_markdown_artifact
    (e : List String → List String) (fs : FS) (cwd : String)
    (path outputDir : Option String)
    (h : fs.fileExists (path.getD cwd ++ "/MEMORY.md") = true ∨
         fs.fileExists (path.getD cwd ++ "/HISTORY.md") = true) :
    distillOp e fs cwd path outputDir =
      ((fs.addDir (outputDir.getD (path.getD cwd ++ "/.mindprint"))).setFile
          (outputDir.getD (path.getD cwd ++ "/.mindprint") ++ "/cognition.md")
          (distillContent e (combinedOf fs (path.getD cwd))),
        "✓ Cognition distilled to " ++
            (outputDir.getD (path.getD cwd ++ "/.mindprint") ++ "/cognition.md") ++
          redactedInfo (countRedactions (combinedOf fs (path.getD cwd)))) := by
  unfold distillOp
  rcases h with h | h <;> simp [h]

theorem distill_persists_single_markdown_artifact_witness :
    (FS.fileExists fs0 ((some "/ws").getD "/cwd" ++ "/MEMORY.md") = true ∨
        FS.fileExists fs0 ((some "/ws").getD "/cwd" ++ "/HISTORY.md") = true) ∧
      distillOp List.dedup fs0 "/cwd" (some "/ws") none =
        ((fs0.addDir "/ws/.mindprint").setFile "/ws/.mindprint/cognition.md"
            (distillContent List.dedup (combinedOf fs0 "/ws")),
          "✓ Cognition distilled to /ws/.mindprint/cognition.md" ++
            redactedInfo (countRedactions (combinedOf fs0 "/ws"))) :=
  ⟨Or.inl (by decide),
    distill_persists_single_markdown_artifact List.dedup fs0 "/cwd" (some "/ws") none
      (Or.inl (by decide))⟩

/-- Claim C10 (confirmed): the rendered view's bullet lists are bounded —
at most 10 concepts, 10 methodologies and 5 key insights — and every
bullet comes from the first 15 extracted lines of its category, after
deduplication, with leading list markers stripped. -/
theorem format_bullets_bounded (e : List String → List String) (pats : Patterns)
    (he : validEnum e) :
    (conceptsShown e pats).length ≤ 10 ∧ (methodologiesShown e pats).length ≤ 10 ∧
      (learningsShown e pats).length ≤ 5 ∧
      (∀ c ∈ conceptsShown e pats, ∃ p ∈ pats.concepts.take 15, c = cleanBullet p) ∧
      (∀ c ∈ methodologiesShown e pats, ∃ p ∈ pats.methodologies.take 15, c = cleanBullet p) ∧
      (∀ c ∈ learningsShown e pats, ∃ p ∈ pats.learnings.take 15, c = cleanBullet p) := by
  refine ⟨?_, ?_, ?_, shown_sound e he pats.concepts 10,
    shown_sound e he pats.methodologies 10, shown_sound e he pats.learnings 5⟩
  · exact (List.length_take 10 _).le.trans (Nat.min_le_left _ _)
  · exact (List.length_take 10 _).le.trans (Nat.min_le_left _ _)
  · exact (List.length_take 5 _).le.trans (Nat.min_le_left _ _)

theorem format_bullets_bounded_witness :
    validEnum List.dedup ∧
      ((conceptsShown List.dedup samplePats).length ≤ 10 ∧
        (methodologiesShown List.dedup samplePats).length ≤ 10 ∧
        (learningsShown List.dedup samplePats).length ≤ 5 ∧
        (∀ c ∈ conceptsShown List.dedup samplePats,
          ∃ p ∈ samplePats.concepts.take 15, c = cleanBullet p) ∧
        (∀ c ∈ methodologiesShown List.dedup samplePats,
          ∃ p ∈ samplePats.methodologies.take 15, c = cleanBullet p) ∧
        (∀ c ∈ learningsShown List.dedup samplePats,
          ∃ p ∈ samplePats.learnings.take 15, c = cleanBullet p)) :=
  ⟨dedupValid, format_bullets_bounded List.dedup samplePats dedupValid⟩

end MindPrint
